import Mathlib

/-!
Verification of the pyvista point-set wrapper (`pyvista/core/pointset.py`).

The wrapper classes (PolyData, UnstructuredGrid, StructuredGrid) translate
between NumPy arrays and the wrapped VTK mesh representations.  This file
gives a shallow embedding of that translation layer:

* machine arrays become Lean lists (`List Int` for the id-typed flat
  connectivity arrays, `List Nat` for uint8 cell-type arrays, lists of
  integer triples for point arrays; the claims under study are structural,
  so point coordinates are embedded as integers);
* raising an exception becomes returning `Except.error`;
* in-place mutation becomes explicit state passing on state structures.

Definitions are translated from `pyvista/core/pointset.py`.  Helpers that
the wrapper imports from `pyvista.utilities.cells` and the VTK data model
itself are not part of the inspected sources; each such definition carries
a doc comment starting with "Modelled from the spec:" naming what is
missing.
-/

set_option linter.unusedVariables false

namespace PyVista

/-- Python exception kinds raised by the wrapper.  `unmodelled` marks
behaviour outside the modelling scope (malformed padded arrays handed
directly to VTK, array contents that do not fit the documented call
signature); it is distinct from every exception the spec talks about. -/
inductive PVError where
  | typeError (msg : String)
  | valueError (msg : String)
  | indexError
  | unmodelled (msg : String)
deriving DecidableEq, Repr

/-- A 3-D point; the claims under study are structural, so integer
coordinates suffice. -/
abbrev Point3 := Int × Int × Int

/-! ## The count-prefixed padded flat cell encoding

A VTK cell array is exchanged as a flat integer array
`[n0, p00, ..., p0(n0-1), n1, p10, ...]` where each cell is prefixed by its
point count.  `cellsToFlat` serialises a list of cells into this encoding;
`parseCells` decodes it.  This is the format described by the spec for
faces, lines, verts and unstructured-grid cells. -/

/-- Serialise cells into the count-prefixed padded flat encoding. -/
def cellsToFlat (cs : List (List Int)) : List Int :=
  cs.flatMap (fun c => ((c.length : Int) :: c))

/-- Modelled from the spec: the VTK cell-array constructor (wrapped by
`CellArray` in `pyvista.utilities.cells`, not under src/) splits a
count-prefixed padded flat array into its cells.  Structural recursion on
an explicit fuel argument (the list length bounds the number of cells), so
that the definition evaluates by reduction.  A count that is negative or
runs past the end of the array makes the array malformed (`none`). -/
def parseCellsAux : Nat → List Int → Option (List (List Int))
  | _, [] => some []
  | 0, _ :: _ => none
  | fuel + 1, c :: rest =>
    if 0 ≤ c ∧ c.toNat ≤ rest.length then
      match parseCellsAux fuel (rest.drop c.toNat) with
      | some cs => some (rest.take c.toNat :: cs)
      | none => none
    else none

/-- Decode a count-prefixed padded flat array into its list of cells. -/
def parseCells (l : List Int) : Option (List (List Int)) :=
  parseCellsAux l.length l

theorem parseCellsAux_eq_len (f : Nat) :
    ∀ l : List Int, l.length ≤ f → parseCellsAux f l = parseCellsAux l.length l := by
  induction f using Nat.strong_induction_on with
  | _ f ih =>
    intro l hf
    match l with
    | [] => cases f <;> rfl
    | c :: rest =>
      match f, hf with
      | f + 1, hf =>
        have hr : rest.length ≤ f := by simp at hf; omega
        simp only [List.length_cons, parseCellsAux]
        by_cases h : 0 ≤ c ∧ c.toNat ≤ rest.length
        · have hd1 : (rest.drop c.toNat).length ≤ f := by
            simp only [List.length_drop]; omega
          have hd2 : (rest.drop c.toNat).length ≤ rest.length := by
            simp only [List.length_drop]; omega
          have e1 := ih f (by omega) (rest.drop c.toNat) hd1
          have e2 := ih rest.length (by omega) (rest.drop c.toNat) hd2
          rw [if_pos h, if_pos h, e1, e2]
        · rw [if_neg h, if_neg h]

theorem parseCellsAux_fuel (l : List Int) (f g : Nat)
    (hf : l.length ≤ f) (hg : l.length ≤ g) :
    parseCellsAux f l = parseCellsAux g l := by
  rw [parseCellsAux_eq_len f l hf, parseCellsAux_eq_len g l hg]

/-- Unfolding lemma: decoding the empty flat array. -/
@[simp] theorem parseCells_nil : parseCells [] = some [] := rfl

/-- Unfolding lemma: decoding a well-formed head cell. -/
theorem parseCells_cons (c : Int) (rest : List Int)
    (h : 0 ≤ c ∧ c.toNat ≤ rest.length) :
    parseCells (c :: rest) =
      match parseCells (rest.drop c.toNat) with
      | some cs => some (rest.take c.toNat :: cs)
      | none => none := by
  show parseCellsAux (c :: rest).length (c :: rest) = _
  simp only [List.length_cons, parseCellsAux, if_pos h]
  rw [parseCellsAux_eq_len rest.length (rest.drop c.toNat)
    (by simp only [List.length_drop]; omega)]
  rfl

/-- The decoder undoes the serialiser: a serialised cell list parses back
to itself. -/
theorem parseCells_cellsToFlat (cs : List (List Int)) :
    parseCells (cellsToFlat cs) = some cs := by
  induction cs with
  | nil => rfl
  | cons c cs ih =>
    have hflat : cellsToFlat (c :: cs) = (c.length : Int) :: (c ++ cellsToFlat cs) := by
      simp [cellsToFlat]
    rw [hflat, parseCells_cons _ _ (by simp)]
    have htn : ((c.length : Int)).toNat = c.length := by simp
    rw [htn, List.drop_left, List.take_left, ih]

/-- The serialiser undoes the decoder: any flat array that parses
re-serialises to itself. -/
theorem cellsToFlat_parseCells (l : List Int) (cs : List (List Int))
    (h : parseCells l = some cs) : cellsToFlat cs = l := by
  have main : ∀ fuel l cs, l.length ≤ fuel → parseCellsAux fuel l = some cs →
      cellsToFlat cs = l := by
    intro fuel
    induction fuel with
    | zero =>
      intro l cs hf h
      match l with
      | [] => cases h; rfl
      | c :: rest => simp at hf
    | succ fuel ih =>
      intro l cs hf h
      match l with
      | [] => cases h; rfl
      | c :: rest =>
        simp only [parseCellsAux] at h
        by_cases hc : 0 ≤ c ∧ c.toNat ≤ rest.length
        · rw [if_pos hc] at h
          cases hd : parseCellsAux fuel (rest.drop c.toNat) with
          | none => rw [hd] at h; cases h
          | some cs2 =>
            rw [hd] at h
            cases h
            have hrec := ih (rest.drop c.toNat) cs2
              (by simp [List.length_drop] at *; omega) hd
            simp only [cellsToFlat, List.flatMap_cons] at *
            rw [hrec]
            simp only [List.length_take]
            have hmin : min c.toNat rest.length = c.toNat := by omega
            rw [hmin, List.cons_append, List.take_append_drop, Int.toNat_of_nonneg hc.1]
        · rw [if_neg hc] at h; cases h
  exact main l.length l cs (le_refl _) h

/-! ## PolyData (`pyvista/core/pointset.py`, class PolyData)

The state holds the point array and the three VTK cell arrays (verts,
lines, polys).  Cell arrays are kept in decoded form; the numpy-facing
properties re-serialise them into the padded flat encoding, mirroring
`vtk_to_numpy(self.GetPolys().GetData())`. -/

structure PolyDataState where
  points : List Point3
  verts : List (List Int)
  lines : List (List Int)
  faces : List (List Int)
deriving DecidableEq, Repr

/-- The empty mesh produced by `PolyData()`. -/
def emptyPD : PolyDataState := { points := [], verts := [], lines := [], faces := [] }

/-- `PolyData.verts` getter: the flat padded vertex-cell array. -/
def vertsProp (g : PolyDataState) : List Int := cellsToFlat g.verts

/-- `PolyData.lines` getter: the flat padded line-cell array. -/
def linesProp (g : PolyDataState) : List Int := cellsToFlat g.lines

/-- `PolyData.faces` getter: the flat padded face-cell array. -/
def facesProp (g : PolyDataState) : List Int := cellsToFlat g.faces

/-- `PolyData.n_cells` (via VTK `GetNumberOfCells`): verts, lines and
polys all count as cells. -/
def pdNCells (g : PolyDataState) : Nat :=
  g.verts.length + g.lines.length + g.faces.length

/-- `PolyData._make_vertex_cells`: the `(npoints, 2)` array with first
column 1 and second column `arange(npoints)`, as handed to `CellArray`
(that is, flattened in row-major order). -/
def make_vertex_cells (npoints : Nat) : List Int :=
  (List.range npoints).flatMap (fun i => [1, (i : Int)])

/-- Store a padded flat array into a cell-array slot, as the
`CellArray(...)` constructor calls do.  The `n_cells`/`deep` arguments of
`CellArray` only affect allocation speed and aliasing, not the stored
cells, and are not modelled. -/
def parseCellArray (flat : List Int) : Except PVError (List (List Int)) :=
  match parseCells flat with
  | some cs => .ok cs
  | none => .error (.unmodelled "malformed padded cell array")

/-- The possible first arguments of `PolyData.__init__`, by runtime type.
`otherType` stands for any value whose type is none of the accepted ones
(not `None`, not a string or path, not a PolyData, not an ndarray or
list). -/
inductive PDInput where
  | noArg
  | fileName (s : String)
  | polyData (p : PolyDataState)
  | pointsArr (pts : List Point3)
  | otherType (tyName : String)
deriving DecidableEq, Repr

/-- Python truthiness of an optional connectivity-array argument (used by
the `if local_parms[kwarg]` guards): present and non-empty.  (For a numpy
array of more than one element the Python test would itself raise; that
corner is outside the claims and not modelled.) -/
def truthyArr (o : Option (List Int)) : Bool :=
  match o with
  | some l => !l.isEmpty
  | none => false

/-- Python truthiness of the optional `n_faces` count argument. -/
def truthyNat (o : Option Nat) : Bool :=
  match o with
  | some n => n ≠ 0
  | none => false

/-- Modelled from the spec: file reading (`DataSet._from_file`) and the
file-format codecs are owned by the wrapped library and are out of scope;
no claim under study depends on the mesh read from a file. -/
def pdFromFile (s : String) : PolyDataState := emptyPD

/-- Tail of `PolyData.__init__` after the points have been set: add the
face/line cells, or one vertex cell per point when neither is given. -/
def pdFinish (pts : List Point3) (faces : Option (List Int))
    (n_faces : Option Nat) (lines : Option (List Int)) (n_lines : Option Nat) :
    Except PVError PolyDataState :=
  let base : PolyDataState := { points := pts, verts := [], lines := [], faces := [] }
  match faces, lines with
  | none, none => do
    let vcs ← parseCellArray (make_vertex_cells pts.length)
    .ok { base with verts := vcs }
  | some f, none => do
    let fcs ← parseCellArray f
    .ok { base with faces := fcs }
  | some f, some l => do
    let fcs ← parseCellArray f
    let lcs ← parseCellArray l
    .ok { base with faces := fcs, lines := lcs }
  | none, some l => do
    let lcs ← parseCellArray l
    .ok { base with lines := lcs }

/-- `PolyData.__init__`.  NOTE the faithful modelling of the source slip
at the invalid-input branch: the source builds
`TypeError('Invalid Input type: ...')` without `raise`, so execution
falls through to the cell-setup tail with no points set. -/
def pdInit (var_inp : PDInput) (faces : Option (List Int)) (n_faces : Option Nat)
    (lines : Option (List Int)) (n_lines : Option Nat) : Except PVError PolyDataState :=
  match var_inp with
  | .noArg => .ok emptyPD
  | .fileName s =>
    if truthyArr faces || truthyNat n_faces || truthyArr lines then
      .error (.valueError "No other arguments should be set when first parameter is a string")
    else
      let m := pdFromFile s
      if m.points.length > 0 && pdNCells m == 0 then
        match parseCellArray (make_vertex_cells m.points.length) with
        | .ok vcs => .ok { m with verts := vcs }
        | .error e => .error e
      else .ok m
  | .polyData p =>
    if truthyArr faces || truthyNat n_faces || truthyArr lines then
      .error (.valueError "No other arguments should be set when first parameter is a PolyData")
    else .ok p
  | .pointsArr pts => pdFinish pts faces n_faces lines n_lines
  | .otherType _ => pdFinish [] faces n_faces lines n_lines

/-- The `lines` property setter (`self.lines = ...` wraps the array in a
`CellArray` and calls `SetLines`). -/
def setLinesProp (g : PolyDataState) (l : List Int) : Except PVError PolyDataState := do
  let lcs ← parseCellArray l
  .ok { g with lines := lcs }

/-- `PolyData.is_all_triangles`: no faces, or any lines or verts, gives
False; otherwise the flat face array must consist of groups of four whose
leading count entry is 3. -/
def is_all_triangles (g : PolyDataState) : Bool :=
  if (facesProp g).length = 0 ∨ (linesProp g).length > 0 ∨ (vertsProp g).length > 0 then
    false
  else
    (facesProp g).length % 4 == 0 &&
      (List.range ((facesProp g).length / 4)).all
        (fun i => (facesProp g).getD (4 * i) 0 == 3)

/-! ## UnstructuredGrid (`pyvista/core/pointset.py`, class UnstructuredGrid)

The state holds the decoded cells, the uint8 cell-type array and, for the
pre-VTK9 encoding, the cell-locations array handed to `SetCells`.  The
VTK version is a global of the wrapped library (`_vtk.VTK9`); it is
threaded as an explicit flag and recorded in the state so the `offset`
property can branch on it as the source does. -/

structure UGridState where
  vtk9 : Bool
  points : List Point3
  cellList : List (List Int)
  celltypes : List Nat
  locations : List Int
  cellArrays : List (String × List Nat)
deriving DecidableEq, Repr

/-- The empty grid produced by `UnstructuredGrid()`. -/
def emptyUG (vtk9 : Bool) : UGridState :=
  { vtk9 := vtk9, points := [], cellList := [], celltypes := [],
    locations := [], cellArrays := [] }

/-- `UnstructuredGrid.n_cells` (VTK `GetNumberOfCells`). -/
def ugNCells (g : UGridState) : Nat := g.cellList.length

/-- Modelled from the spec: the offsets array of a VTK 9 cell array
(`GetOffsetsArray`), the "newer encoding" of the spec: prefix sums of the
cell sizes, one entry per cell plus a final one. -/
def offsetsOf : List (List Int) → List Int
  | [] => [0]
  | c :: cs => 0 :: (offsetsOf cs).map (fun v => v + (c.length : Int))

/-- Modelled from the spec: the legacy cell-locations array
(`generate_cell_offsets` in `pyvista.utilities.cells`, not under src/,
and VTK `GetCellLocationsArray`), the "older encoding" of the spec: the
start index of each cell inside the padded flat array, one entry per
cell. -/
def cellLocations : List (List Int) → List Int
  | [] => []
  | c :: cs => 0 :: (cellLocations cs).map (fun v => v + (1 + (c.length : Int)))

/-- `UnstructuredGrid.offset` property: the VTK 9 offsets array, or the
legacy cell-locations array. -/
def offsetProp (g : UGridState) : List Int :=
  if g.vtk9 then offsetsOf g.cellList else g.locations

/-- `cell_type.astype(np.uint8)` on one entry. -/
def toUInt8 (t : Int) : Nat := (t % 256).toNat

/-- `UnstructuredGrid._from_arrays`: build the grid from the optional
legacy offset array, the padded flat cells array, the cell-type array and
the points. -/
def ug_from_arrays (vtk9 : Bool) (offset : Option (List Int)) (cells : List Int)
    (cell_type : List Int) (points : List Point3) : Except PVError UGridState := do
  let cs ← parseCellArray cells
  let cts := cell_type.map toUInt8
  if vtk9 then
    -- a supplied offset array only triggers a warning and is ignored
    .ok { vtk9 := true, points := points, cellList := cs, celltypes := cts,
          locations := [], cellArrays := [] }
  else
    let loc := match offset with
      | some o => o
      | none => cellLocations cs
    .ok { vtk9 := false, points := points, cellList := cs, celltypes := cts,
          locations := loc, cellArrays := [] }

/-- `UnstructuredGrid._check_for_consistency`: sizes of the cell-type and
offset arrays against the number of cells. -/
def check_for_consistency (g : UGridState) : Except PVError Unit :=
  if ugNCells g ≠ g.celltypes.length then
    .error (.valueError "Number of cell types must match the number of cells")
  else if g.vtk9 then
    if ugNCells g ≠ (offsetProp g).length - 1 then
      .error (.valueError "Size of the offset must be one greater than the number of cells")
    else .ok ()
  else
    if ugNCells g ≠ (offsetProp g).length then
      .error (.valueError "Size of the offset must match the number of cells")
    else .ok ()

/-- A cells dictionary: cell type to the list of that type's cells. -/
abbrev CellsDict := List (Nat × List (List Int))

/-- Modelled from the spec: `create_mixed_cells` (`pyvista.utilities.cells`,
not under src/) converts a dictionary mapping fixed-size cell types to
per-cell point-index arrays into the type-tag array and the
count-prefixed padded flat connectivity array, in dictionary order. -/
def create_mixed_cells (d : CellsDict) : List Nat × List Int :=
  (d.flatMap (fun p => p.2.map (fun _ => p.1)),
   d.flatMap (fun p => cellsToFlat p.2))

/-- `UnstructuredGrid._from_cells_dict`: the `[M, 3]` shape check on the
points is inherent in the `List Point3` embedding; the cell arrays are
produced by `create_mixed_cells` and handed to `_from_arrays` (the legacy
branch also receives the generated offsets, which `_from_arrays` would
regenerate identically, so one call covers both branches). -/
def ug_from_cells_dict (vtk9 : Bool) (d : CellsDict) (points : List Point3) :
    Except PVError UGridState :=
  let tc := create_mixed_cells d
  ug_from_arrays vtk9 none tc.2 (tc.1.map (fun t => Int.ofNat t)) points

/-- First-occurrence order of the cell types appearing in a type array,
by fuel-bounded recursion (the list length bounds the recursion). -/
def typesInOrderAux : Nat → List Nat → List Nat
  | _, [] => []
  | 0, _ :: _ => []
  | fuel + 1, t :: ts => t :: typesInOrderAux fuel (ts.filter (fun u => u ≠ t))

/-- The distinct cell types of a type array, in first-occurrence order. -/
def typesInOrder (l : List Nat) : List Nat := typesInOrderAux l.length l

/-- Modelled from the spec: `get_mixed_cells` (`pyvista.utilities.cells`,
not under src/) inverts the flat-padded encoding back into the dictionary
mapping each cell type appearing in the grid to the array of its cells;
only fixed-size cell types are supported.  Dictionary equality ignores
key order; the model lists keys in first-occurrence order. -/
def get_mixed_cells (g : UGridState) : CellsDict :=
  (typesInOrder g.celltypes).map
    (fun t => (t, (g.celltypes.zip g.cellList).filterMap
      (fun q => if q.1 = t then some q.2 else none)))

/-- `UnstructuredGrid.cells_dict` property. -/
def cellsDictProp (g : UGridState) : CellsDict := get_mixed_cells g

/-- A Python value handed to `UnstructuredGrid.__init__`, by runtime
type.  One-dimensional integer ndarrays and two-dimensional `[M, 3]`
ndarrays are distinguished because the source branches on `ndim`;
`vtkStructuredGrid` input (converted through `vtkAppendFilter`) is outside
the claims and not modelled.  `pyOther` stands for any other type. -/
inductive PyVal where
  | ndIntArr (xs : List Int)
  | ndPtsArr (ps : List Point3)
  | pyDict (d : CellsDict)
  | pyStr (s : String)
  | vtkUGrid (g : UGridState)
  | pyOther (tyName : String)
deriving DecidableEq, Repr

/-- `isinstance(v, np.ndarray)`. -/
def isNdarray : PyVal → Bool
  | .ndIntArr _ => true
  | .ndPtsArr _ => true
  | _ => false

/-- Modelled from the spec: reading a grid from a file is owned by the
wrapped library and out of scope; no claim depends on it. -/
def ugFromFile (vtk9 : Bool) (s : String) : UGridState := emptyUG vtk9

/-- `UnstructuredGrid.__init__`: dispatch on the argument tuple. -/
def ugInit (vtk9 : Bool) (args : List PyVal) : Except PVError UGridState :=
  match args with
  | [] => .ok (emptyUG vtk9)
  | [a] =>
    match a with
    | .vtkUGrid g => .ok { g with vtk9 := vtk9 }
    | .pyStr s => .ok (ugFromFile vtk9 s)
    | _ => .error (.typeError "Cannot work with input type")
  | [a, b] =>
    match a, b with
    | .pyDict d, .ndPtsArr pts => do
      let g ← ug_from_cells_dict vtk9 d pts
      let _ ← check_for_consistency g
      .ok g
    | .pyDict d, .ndIntArr _ =>
      -- a one-dimensional second array fails the ndim check in _from_cells_dict
      .error (.valueError "Points array must be a [M, 3] array")
    | _, _ =>
      if vtk9 then
        .error (.typeError "Invalid parameters.  Initialization with arrays requires cells, cell_type, points")
      else
        .error (.typeError "Invalid parameters.  Initialization with arrays requires offset, cells, cell_type, points")
  | [a, b, c] =>
    if isNdarray a && isNdarray b && isNdarray c then
      match a, b, c with
      | .ndIntArr cells, .ndIntArr cts, .ndPtsArr pts => do
        let g ← ug_from_arrays vtk9 none cells cts pts
        let _ ← check_for_consistency g
        .ok g
      | _, _, _ => .error (.unmodelled "ndarray contents off the documented signature")
    else .error (.typeError "All input types must be np.ndarray")
  | [a, b, c, d] =>
    if isNdarray a && isNdarray b && isNdarray c && isNdarray d then
      match a, b, c, d with
      | .ndIntArr offset, .ndIntArr cells, .ndIntArr cts, .ndPtsArr pts => do
        let g ← ug_from_arrays vtk9 (some offset) cells cts pts
        let _ ← check_for_consistency g
        .ok g
      | _, _, _, _ => .error (.unmodelled "ndarray contents off the documented signature")
    else .error (.typeError "All input types must be np.ndarray")
  | _ =>
    if vtk9 then
      .error (.typeError "Invalid parameters.  Initialization with arrays requires cells, cell_type, points")
    else
      .error (.typeError "Invalid parameters.  Initialization with arrays requires offset, cells, cell_type, points")



/-! ## Ghost-cell machinery (`PointSet.remove_cells`,
`StructuredGrid.hide_cells`)

`remove_cells` is defined on `PointSet` and inherited; it is embedded here
at the `UGridState` instantiation (the class used by its own docstring
example).  The ghost machinery itself belongs to VTK and is modelled. -/

/-- Modelled from the spec: `vtk.vtkDataSetAttributes.DUPLICATECELL`. -/
def DUPLICATECELL : Nat := 1

/-- Modelled from the spec: `vtk.vtkDataSetAttributes.HIDDENCELL`. -/
def HIDDENCELL : Nat := 32

/-- Modelled from the spec: `vtk.vtkDataSetAttributes.GhostArrayName()`. -/
def ghostArrayName : String := "vtkGhostType"

/-- The `ind` argument of `remove_cells`/`hide_cells`: a boolean mask or
an iterable of cell indices. -/
inductive IndArg where
  | boolMask (m : List Bool)
  | indices (l : List Nat)
deriving DecidableEq, Repr

/-- Numpy fancy assignment `arr[ind] = v` for an index list: `none` when
an index is out of bounds (numpy raises an IndexError there). -/
def assignIdx (arr : List Nat) (ind : List Nat) (v : Nat) : Option (List Nat) :=
  match ind with
  | [] => some arr
  | i :: rest => if i < arr.length then assignIdx (arr.set i v) rest v else none

/-- Numpy masked assignment `arr[mask] = v` (mask already size-checked). -/
def assignMask (arr : List Nat) (m : List Bool) (v : Nat) : List Nat :=
  List.zipWith (fun a b => if b then v else a) arr m

/-- `ghost_cells = np.zeros(n_cells, np.uint8); ghost_cells[ind] = v`. -/
def buildGhost (nCells : Nat) (ind : IndArg) (v : Nat) : Except PVError (List Nat) :=
  match ind with
  | .boolMask m => .ok (assignMask (List.replicate nCells 0) m v)
  | .indices l =>
    match assignIdx (List.replicate nCells 0) l v with
    | some gh => .ok gh
    | none => .error .indexError

/-- `mesh.cell_arrays[name] = arr` (dictionary update; entry order is not
observable through any claim and is abstracted). -/
def setAssoc (l : List (String × List Nat)) (k : String) (v : List Nat) :
    List (String × List Nat) :=
  (k, v) :: l.filter (fun p => p.1 ≠ k)

/-- Dictionary lookup in `cell_arrays`. -/
def getAssoc (l : List (String × List Nat)) (k : String) : Option (List Nat) :=
  (l.find? (fun p => p.1 = k)).map Prod.snd

/-- Store a ghost array in a grid's `cell_arrays`. -/
def setCellArray (g : UGridState) (k : String) (v : List Nat) : UGridState :=
  { g with cellArrays := setAssoc g.cellArrays k v }

/-- Keep the entries of a list whose ghost value is zero. -/
def filterByMask {α : Type} (l : List α) (gh : List Nat) : List α :=
  (l.zip gh).filterMap (fun p => if p.2 = 0 then some p.1 else none)

/-- Modelled from the spec: VTK `RemoveGhostCells` drops every cell whose
ghost-array value is set, drops the ghost array, filters the remaining
cell arrays accordingly and rebuilds the legacy locations array. -/
def removeGhost (g : UGridState) : UGridState :=
  match getAssoc g.cellArrays ghostArrayName with
  | none => g
  | some gh =>
    let kept := filterByMask g.cellList gh
    { g with
      cellList := kept,
      celltypes := filterByMask g.celltypes gh,
      locations := if g.vtk9 then [] else cellLocations kept,
      cellArrays := (g.cellArrays.filter (fun p => p.1 ≠ ghostArrayName)).map
        (fun p => (p.1, filterByMask p.2 gh)) }

/-- Body of `PointSet.remove_cells` after the boolean-size check: build
the ghost array, pick the target (the mesh itself or a copy), mark and
remove.  Returns the final state of `self` together with the Python
return value (`None` when `inplace`). -/
def removeCellsCore (g : UGridState) (ind : IndArg) (inplace : Bool) :
    Except PVError (UGridState × Option UGridState) := do
  let gh ← buildGhost (ugNCells g) ind DUPLICATECELL
  let target := removeGhost (setCellArray g ghostArrayName gh)
  if inplace then .ok (target, none) else .ok (g, some target)

/-- `PointSet.remove_cells`. -/
def remove_cells (g : UGridState) (ind : IndArg) (inplace : Bool) :
    Except PVError (UGridState × Option UGridState) :=
  match ind with
  | .boolMask m =>
    if m.length ≠ ugNCells g then
      .error (.valueError "Boolean array size must match the number of cells")
    else removeCellsCore g ind inplace
  | .indices _ => removeCellsCore g ind inplace

/-! ## StructuredGrid (`pyvista/core/pointset.py`, class StructuredGrid)

Multi-dimensional numpy arrays are embedded as a shape together with an
element function on multi-indices; `ravel(order="F")` and
`reshape(dims, order="F")` are the column-major linearisation and its
inverse. -/

/-- A numpy ndarray: a shape and an element function on multi-indices. -/
structure NDArray where
  shape : List Nat
  elem : List Nat → Int

/-- Column-major (Fortran) linear index of a multi-index: the first axis
varies fastest. -/
def fidx : List Nat → List Nat → Nat
  | n :: s, i :: is => i + n * fidx s is
  | _, _ => 0

/-- Inverse of `fidx`: unravel a linear index in column-major order. -/
def funravel : List Nat → Nat → List Nat
  | [], _ => []
  | n :: s, k => (k % n) :: funravel s (k / n)

/-- A multi-index is in bounds for a shape. -/
def validIdx : List Nat → List Nat → Bool
  | [], [] => true
  | n :: s, i :: is => decide (i < n) && validIdx s is
  | _, _ => false

/-- `a.ravel(order="F")`: the elements in column-major order. -/
def ravelF (a : NDArray) : List Int :=
  (List.range a.shape.prod).map (fun k => a.elem (funravel a.shape k))

/-- `v.reshape(dim, order="F")` of a flat vector. -/
def reshapeF (dim : List Nat) (v : List Int) : NDArray :=
  { shape := dim, elem := fun is => v.getD (fidx dim is) 0 }

/-- Pad a shape with trailing ones, as `while len(dim) < 3: dim.append(1)`
does. -/
def padTo3 (s : List Nat) : List Nat := s ++ List.replicate (3 - s.length) 1

/-- The StructuredGrid state: the dimensions tuple, the points stored in
column-major order of the dimensions, and the cell arrays. -/
structure SGridState where
  dims : List Nat
  points : List Point3
  cellArrays : List (String × List Nat)
deriving DecidableEq, Repr

/-- `StructuredGrid.n_cells`: one fewer cell than point along each
dimension, degenerate dimensions counting one (compare the class's own
`_reshape_cell_array`). -/
def sgNCells (g : SGridState) : Nat :=
  (g.dims.map (fun d => max (d - 1) 1)).prod

/-- `StructuredGrid._from_arrays`: check the three shapes match, store
the three column-major flattenings as point columns, pad the shape to
three dimensions and set it.  `SetDimensions` is a VTK call that needs
exactly three values; larger ranks are outside the modelling scope. -/
def sgFromArrays (x y z : NDArray) : Except PVError SGridState :=
  if x.shape = y.shape ∧ y.shape = z.shape then
    let dim := padTo3 x.shape
    if dim.length = 3 then
      .ok { dims := dim,
            points := (List.range x.shape.prod).map
              (fun k => (x.elem (funravel x.shape k),
                         y.elem (funravel y.shape k),
                         z.elem (funravel z.shape k))),
            cellArrays := [] }
    else .error (.unmodelled "SetDimensions requires exactly three values")
  else .error (.valueError "Input point array shapes must match exactly")

/-- `StructuredGrid.x` property: the first point column reshaped to the
grid dimensions in column-major order. -/
def xProp (g : SGridState) : NDArray := reshapeF g.dims (g.points.map (fun p => p.1))

/-- `StructuredGrid.y` property. -/
def yProp (g : SGridState) : NDArray := reshapeF g.dims (g.points.map (fun p => p.2.1))

/-- `StructuredGrid.z` property. -/
def zProp (g : SGridState) : NDArray := reshapeF g.dims (g.points.map (fun p => p.2.2))

/-- `StructuredGrid.hide_cells`: size-check a boolean mask, then store
the HIDDENCELL ghost array; cells are never removed. -/
def hide_cells (g : SGridState) (ind : IndArg) : Except PVError SGridState :=
  match ind with
  | .boolMask m =>
    if m.length ≠ sgNCells g then
      .error (.valueError "Boolean array size must match the number of cells")
    else do
      let gh ← buildGhost (sgNCells g) ind HIDDENCELL
      .ok { g with cellArrays := setAssoc g.cellArrays ghostArrayName gh }
  | .indices _ => do
    let gh ← buildGhost (sgNCells g) ind HIDDENCELL
    .ok { g with cellArrays := setAssoc g.cellArrays ghostArrayName gh }

/-! ## Supporting lemmas -/

/-- The decoded form of the vertex-cell array: one singleton cell per
point index. -/
def singletonCells (l : List Nat) : List (List Int) :=
  l.map (fun i => [Int.ofNat i])

theorem cellsToFlat_singletons (l : List Nat) :
    cellsToFlat (singletonCells l) = l.flatMap (fun i => [1, (i : Int)]) := by
  induction l with
  | nil => rfl
  | cons a l ih =>
    simp only [singletonCells, List.map_cons, List.flatMap_cons, cellsToFlat] at *
    rw [ih]
    rfl

theorem make_vertex_cells_eq (n : Nat) :
    make_vertex_cells n = cellsToFlat (singletonCells (List.range n)) := by
  rw [make_vertex_cells, cellsToFlat_singletons]

theorem parse_make_vertex_cells (n : Nat) :
    parseCells (make_vertex_cells n) = some (singletonCells (List.range n)) := by
  rw [make_vertex_cells_eq, parseCells_cellsToFlat]

/-! ## Claim theorems -/

/-- C3 (code bug evidence): for a first argument of an invalid type, the
`PolyData` constructor builds a `TypeError` but never raises it (the
`raise` keyword is missing in the source), so construction falls through
and returns an empty mesh instead of raising; the `UnstructuredGrid`
constructor, in contrast, does raise the `TypeError` it builds. -/
theorem polydata_invalid_type_not_raised :
    pdInit (.otherType "int") none none none none = .ok emptyPD ∧
    ugInit true [.pyOther "int"] = .error (.typeError "Cannot work with input type") :=
  ⟨rfl, rfl⟩

/-- C9: constructing a `PolyData` from a points array with neither faces
nor lines creates exactly one vertex cell per point: the flat verts array
is `[1, 0, 1, 1, ..., 1, n-1]` and the cell count equals the point
count. -/
theorem polydata_point_cloud_vertex_cells (pts : List Point3) :
    ∃ g, pdInit (.pointsArr pts) none none none none = .ok g ∧
      g.points = pts ∧
      vertsProp g = make_vertex_cells pts.length ∧
      make_vertex_cells pts.length =
        (List.range pts.length).flatMap (fun i => [1, (i : Int)]) ∧
      g.lines = [] ∧ g.faces = [] ∧
      pdNCells g = pts.length := by
  refine ⟨{ points := pts, verts := singletonCells (List.range pts.length),
            lines := [], faces := [] }, ?_, rfl, ?_, rfl, rfl, rfl, ?_⟩
  · show pdFinish pts none none none none = _
    simp only [pdFinish, parseCellArray, parse_make_vertex_cells]
    rfl
  · show cellsToFlat _ = _
    rw [make_vertex_cells_eq]
  · simp [pdNCells, singletonCells]

/-- C8: `is_all_triangles` returns True exactly when the mesh has a
non-empty faces array, empty lines and verts arrays, a faces array whose
length is a multiple of four, and a 3 in every count entry (every fourth
element starting at index 0). -/
theorem is_all_triangles_iff (g : PolyDataState) :
    is_all_triangles g = true ↔
      (facesProp g ≠ [] ∧ linesProp g = [] ∧ vertsProp g = [] ∧
       (facesProp g).length % 4 = 0 ∧
       ∀ i, i < (facesProp g).length / 4 → (facesProp g).getD (4 * i) 0 = 3) := by
  rw [is_all_triangles]
  by_cases hA : (facesProp g).length = 0 ∨ (linesProp g).length > 0 ∨ (vertsProp g).length > 0
  · rw [if_pos hA]
    constructor
    · intro h; cases h
    · intro h
      exfalso
      rcases h with ⟨h1, h2, h3, _, _⟩
      rcases hA with h | h | h
      · exact h1 (List.length_eq_zero.mp h)
      · rw [h2] at h; exact absurd h (by simp)
      · rw [h3] at h; exact absurd h (by simp)
  · rw [if_neg hA]
    push_neg at hA
    obtain ⟨h1, h2, h3⟩ := hA
    constructor
    · intro h
      rw [Bool.and_eq_true] at h
      refine ⟨fun he => h1 (by rw [he]; rfl), ?_, ?_, ?_, ?_⟩
      · have : (linesProp g).length = 0 := by omega
        exact List.length_eq_zero.mp this
      · have : (vertsProp g).length = 0 := by omega
        exact List.length_eq_zero.mp this
      · have hb := h.1
        simp only [beq_iff_eq] at hb
        exact hb
      · intro i hi
        have hall := h.2
        rw [List.all_eq_true] at hall
        have hm := hall i (List.mem_range.mpr hi)
        simp only [beq_iff_eq] at hm
        exact hm
    · rintro ⟨k1, k2, k3, k4, k5⟩
      rw [Bool.and_eq_true]
      constructor
      · simp only [beq_iff_eq]
        exact k4
      · rw [List.all_eq_true]
        intro i hi
        have hv := k5 i (List.mem_range.mp hi)
        simp only [beq_iff_eq]
        exact hv

/-- C6: constructing a `PolyData` from points and a padded flat face
array hands back exactly that flat array through the `faces` property,
and setting the `lines` property with a padded array reads back as that
same array. -/
theorem polydata_connectivity_roundtrip (pts : List Point3) (f l : List Int)
    (fcs lcs : List (List Int)) (nf nl : Option Nat)
    (hf : parseCells f = some fcs) (hl : parseCells l = some lcs) :
    ∃ g g2,
      pdInit (.pointsArr pts) (some f) nf none nl = .ok g ∧
      facesProp g = f ∧
      setLinesProp g l = .ok g2 ∧
      linesProp g2 = l ∧
      facesProp g2 = f ∧ g2.points = pts := by
  refine ⟨{ points := pts, verts := [], lines := [], faces := fcs },
          { points := pts, verts := [], lines := lcs, faces := fcs },
          ?_, ?_, ?_, ?_, ?_, rfl⟩
  · show pdFinish pts (some f) nf none nl = _
    simp only [pdFinish, parseCellArray, hf]
    rfl
  · exact cellsToFlat_parseCells f fcs hf
  · simp only [setLinesProp, parseCellArray, hl]
    rfl
  · exact cellsToFlat_parseCells l lcs hl
  · exact cellsToFlat_parseCells f fcs hf

/-- C7: `StructuredGrid` construction from three arrays whose shapes are
not all equal raises a ValueError. -/
theorem sg_shape_mismatch_valueerror (x y z : NDArray)
    (h : ¬(x.shape = y.shape ∧ y.shape = z.shape)) :
    sgFromArrays x y z =
      .error (.valueError "Input point array shapes must match exactly") := by
  rw [sgFromArrays, if_neg h]

/-- C4: a boolean mask whose size differs from the cell count makes
`remove_cells` and `hide_cells` raise a ValueError; a correctly sized
mask succeeds, and an index iterable is never rejected by the size check
(the only error it can produce is an IndexError from the numpy ghost
assignment). -/
theorem mask_size_validation :
    (∀ (g : UGridState) (m : List Bool) (inplace : Bool), m.length ≠ ugNCells g →
      remove_cells g (.boolMask m) inplace =
        .error (.valueError "Boolean array size must match the number of cells")) ∧
    (∀ (g : UGridState) (m : List Bool) (inplace : Bool), m.length = ugNCells g →
      ∃ r, remove_cells g (.boolMask m) inplace = .ok r) ∧
    (∀ (g : UGridState) (l : List Nat) (inplace : Bool) (e : PVError),
      remove_cells g (.indices l) inplace = .error e → e = .indexError) ∧
    (∀ (g : SGridState) (m : List Bool), m.length ≠ sgNCells g →
      hide_cells g (.boolMask m) =
        .error (.valueError "Boolean array size must match the number of cells")) ∧
    (∀ (g : SGridState) (m : List Bool), m.length = sgNCells g →
      ∃ r, hide_cells g (.boolMask m) = .ok r) ∧
    (∀ (g : SGridState) (l : List Nat) (e : PVError),
      hide_cells g (.indices l) = .error e → e = .indexError) := by
  refine ⟨?_, ?_, ?_, ?_, ?_, ?_⟩
  · intro g m inplace h
    rw [remove_cells, if_pos h]
  · intro g m inplace h
    rw [remove_cells, if_neg (by omega)]
    simp only [removeCellsCore, buildGhost]
    cases inplace
    · exact ⟨_, rfl⟩
    · exact ⟨_, rfl⟩
  · intro g l inplace e h
    rw [remove_cells] at h
    simp only [removeCellsCore, buildGhost] at h
    cases ha : assignIdx (List.replicate (ugNCells g) 0) l DUPLICATECELL with
    | some gh =>
      rw [ha] at h
      cases inplace <;> simp [Except.bind] at h <;> cases h
    | none =>
      rw [ha] at h
      cases h
      rfl
  · intro g m h
    rw [hide_cells, if_pos h]
  · intro g m h
    rw [hide_cells, if_neg (by omega)]
    simp only [buildGhost]
    exact ⟨_, rfl⟩
  · intro g l e h
    rw [hide_cells] at h
    simp only [buildGhost] at h
    cases ha : assignIdx (List.replicate (sgNCells g) 0) l HIDDENCELL with
    | some gh =>
      rw [ha] at h
      cases h
    | none =>
      rw [ha] at h
      cases h
      rfl

/-! ## Removal as index filtering (for the frame claim) -/

/-- Reference description of ghost-cell removal: keep the entries whose
position (counted from `start`) is not in the index list. -/
def keepNotIndexed {α : Type} (l : List α) (ind : List Nat) (start : Nat) : List α :=
  match l with
  | [] => []
  | a :: l =>
    if start ∈ ind then keepNotIndexed l ind (start + 1)
    else a :: keepNotIndexed l ind (start + 1)

theorem assignIdx_spec (v : Nat) :
    ∀ (ind : List Nat) (arr : List Nat), (∀ i ∈ ind, i < arr.length) →
      ∃ res, assignIdx arr ind v = some res ∧ res.length = arr.length ∧
        ∀ j, j < arr.length →
          res.getD j 0 = if j ∈ ind then v else arr.getD j 0 := by
  intro ind
  induction ind with
  | nil =>
    intro arr hb
    exact ⟨arr, rfl, rfl, by intro j hj; simp⟩
  | cons i rest ih =>
    intro arr hb
    have hi : i < arr.length := hb i (by simp)
    obtain ⟨res, h1, h2, h3⟩ := ih (arr.set i v)
      (by intro a ha; rw [List.length_set]; exact hb a (by simp [ha]))
    refine ⟨res, ?_, ?_, ?_⟩
    · rw [assignIdx, if_pos hi, h1]
    · rw [h2, List.length_set]
    · intro j hj
      have hj2 : j < (arr.set i v).length := by rw [List.length_set]; exact hj
      rw [h3 j hj2]
      by_cases hm : j ∈ rest
      · rw [if_pos hm, if_pos (by simp [hm])]
      · rw [if_neg hm]
        by_cases he : j = i
        · subst he
          rw [if_pos (by simp)]
          rw [List.getD_eq_getElem?_getD, List.getElem?_set_self (by omega)]
          rfl
        · rw [if_neg (by simp [he, hm])]
          rw [List.getD_eq_getElem?_getD, List.getD_eq_getElem?_getD,
            List.getElem?_set_ne (by omega)]

theorem filterByMask_cons_zero {α : Type} (a : α) (l : List α) (gh : List Nat) :
    filterByMask (a :: l) (0 :: gh) = a :: filterByMask l gh := by
  simp [filterByMask]

theorem filterByMask_cons_pos {α : Type} (a : α) (l : List α) (g0 : Nat)
    (hg : g0 ≠ 0) (gh : List Nat) :
    filterByMask (a :: l) (g0 :: gh) = filterByMask l gh := by
  simp [filterByMask, hg]

theorem filterByMask_keepNotIndexed {α : Type} (ind : List Nat) (v : Nat) (hv : v ≠ 0) :
    ∀ (l : List α) (gh : List Nat) (start : Nat), gh.length = l.length →
      (∀ j, j < l.length → gh.getD j 0 = if (start + j) ∈ ind then v else 0) →
      filterByMask l gh = keepNotIndexed l ind start := by
  intro l
  induction l with
  | nil => intro gh start _ _; cases gh <;> rfl
  | cons a l ih =>
    intro gh start hlen hval
    match gh, hlen with
    | g0 :: gh, hlen =>
      have h0 : g0 = if start ∈ ind then v else 0 := by
        have := hval 0 (by simp)
        simpa using this
      have htail : filterByMask l gh = keepNotIndexed l ind (start + 1) := by
        refine ih gh (start + 1) (by simpa using hlen) ?_
        intro j hj
        have := hval (j + 1) (by simp; omega)
        simpa [Nat.add_assoc, Nat.add_comm 1 j] using this
      by_cases hm : start ∈ ind
      · rw [h0, if_pos hm, filterByMask_cons_pos _ _ _ hv, keepNotIndexed, if_pos hm]
        exact htail
      · rw [h0, if_neg hm, filterByMask_cons_zero, keepNotIndexed, if_neg hm, htail]

theorem getAssoc_setAssoc (l : List (String × List Nat)) (k : String) (v : List Nat) :
    getAssoc (setAssoc l k v) k = some v := by
  rw [setAssoc, getAssoc, List.find?_cons_of_pos _ (by simp)]
  rfl

/-- C10: for valid cell indices, `remove_cells` with `inplace=False`
returns the original mesh unchanged as `self` together with a new mesh in
which exactly the indicated cells were removed, and with `inplace=True`
it applies the same removal to the mesh itself and returns `None`. -/
theorem remove_cells_inplace_frame (g : UGridState) (ind : List Nat)
    (hval : ∀ i ∈ ind, i < ugNCells g)
    (hinv : g.celltypes.length = g.cellList.length) :
    (∃ g2, remove_cells g (.indices ind) false = .ok (g, some g2) ∧
      g2.cellList = keepNotIndexed g.cellList ind 0 ∧
      g2.celltypes = keepNotIndexed g.celltypes ind 0) ∧
    (∃ g2, remove_cells g (.indices ind) true = .ok (g2, none) ∧
      g2.cellList = keepNotIndexed g.cellList ind 0 ∧
      g2.celltypes = keepNotIndexed g.celltypes ind 0) := by
  obtain ⟨gh, hassign, hlen, hpt⟩ := assignIdx_spec DUPLICATECELL ind
    (List.replicate (ugNCells g) 0)
    (by intro i hi; simpa using hval i hi)
  have hghlen : gh.length = g.cellList.length := by
    simpa [ugNCells] using hlen
  have hpt2 : ∀ j, j < g.cellList.length →
      gh.getD j 0 = if j ∈ ind then DUPLICATECELL else 0 := by
    intro j hj
    have hrep : (List.replicate (ugNCells g) (0 : Nat)).getD j 0 = 0 := by
      rw [List.getD_eq_getElem?_getD, List.getElem?_replicate]
      split <;> rfl
    have := hpt j (by simpa [ugNCells] using hj)
    rw [hrep] at this
    exact this
  have hcl : filterByMask g.cellList gh = keepNotIndexed g.cellList ind 0 :=
    filterByMask_keepNotIndexed ind DUPLICATECELL (by decide) g.cellList gh 0 hghlen
      (by intro j hj; rw [Nat.zero_add]; exact hpt2 j hj)
  have hct : filterByMask g.celltypes gh = keepNotIndexed g.celltypes ind 0 :=
    filterByMask_keepNotIndexed ind DUPLICATECELL (by decide) g.celltypes gh 0
      (by rw [hghlen, hinv])
      (by intro j hj; rw [Nat.zero_add]; exact hpt2 j (by omega))
  have hmatch : getAssoc (setCellArray g ghostArrayName gh).cellArrays ghostArrayName
      = some gh := getAssoc_setAssoc g.cellArrays ghostArrayName gh
  have hg2cl : (removeGhost (setCellArray g ghostArrayName gh)).cellList
      = keepNotIndexed g.cellList ind 0 := by
    rw [removeGhost, hmatch]
    exact hcl
  have hg2ct : (removeGhost (setCellArray g ghostArrayName gh)).celltypes
      = keepNotIndexed g.celltypes ind 0 := by
    rw [removeGhost, hmatch]
    exact hct
  constructor
  · refine ⟨removeGhost (setCellArray g ghostArrayName gh), ?_, hg2cl, hg2ct⟩
    show removeCellsCore g (.indices ind) false = _
    simp only [removeCellsCore, buildGhost, hassign]
    rfl
  · refine ⟨removeGhost (setCellArray g ghostArrayName gh), ?_, hg2cl, hg2ct⟩
    show removeCellsCore g (.indices ind) true = _
    simp only [removeCellsCore, buildGhost, hassign]
    rfl

/-! ## UnstructuredGrid construction lemmas -/

theorem offsetsOf_length (cs : List (List Int)) :
    (offsetsOf cs).length = cs.length + 1 := by
  induction cs with
  | nil => rfl
  | cons c cs ih => simp [offsetsOf, ih]

theorem cellLocations_length (cs : List (List Int)) :
    (cellLocations cs).length = cs.length := by
  induction cs with
  | nil => rfl
  | cons c cs ih => simp [cellLocations, ih]

/-- The type tags emitted by `create_mixed_cells`: one per cell, in
dictionary order. -/
def tagList (d : CellsDict) : List Nat :=
  d.flatMap (fun p => p.2.map (fun _ => p.1))

/-- All cells of a cells dictionary, in dictionary order. -/
def cellsOf (d : CellsDict) : List (List Int) :=
  d.flatMap (fun p => p.2)

theorem cellsToFlat_append (cs ds : List (List Int)) :
    cellsToFlat (cs ++ ds) = cellsToFlat cs ++ cellsToFlat ds := by
  simp [cellsToFlat]

theorem create_mixed_cells_fst (d : CellsDict) :
    (create_mixed_cells d).1 = tagList d := rfl

theorem create_mixed_cells_snd (d : CellsDict) :
    (create_mixed_cells d).2 = cellsToFlat (cellsOf d) := by
  induction d with
  | nil => rfl
  | cons p d ih =>
    show (p :: d).flatMap (fun p => cellsToFlat p.2) = _
    rw [List.flatMap_cons]
    show cellsToFlat p.2 ++ (create_mixed_cells d).2
      = cellsToFlat ((p :: d).flatMap (fun p => p.2))
    rw [ih, List.flatMap_cons, cellsToFlat_append]
    rfl

theorem tagList_length (d : CellsDict) :
    (tagList d).length = (cellsOf d).length := by
  induction d with
  | nil => rfl
  | cons p d ih =>
    rw [tagList, cellsOf, List.flatMap_cons, List.flatMap_cons,
      List.length_append, List.length_append, List.length_map]
    rw [tagList, cellsOf] at ih
    rw [ih]

/-- The state built by a successful `_from_arrays` call. -/
def ugFromArraysState (vtk9 : Bool) (off : Option (List Int)) (cts : List Int)
    (pts : List Point3) (cs : List (List Int)) : UGridState :=
  { vtk9 := vtk9, points := pts, cellList := cs, celltypes := cts.map toUInt8,
    locations := if vtk9 then []
      else (match off with | some o => o | none => cellLocations cs),
    cellArrays := [] }

theorem ug_from_arrays_ok (vtk9 : Bool) (off : Option (List Int))
    (cells cts : List Int) (pts : List Point3) (cs : List (List Int))
    (hp : parseCells cells = some cs) :
    ug_from_arrays vtk9 off cells cts pts =
      .ok (ugFromArraysState vtk9 off cts pts cs) := by
  show (parseCellArray cells >>= fun cs => _) = _
  rw [parseCellArray, hp]
  cases vtk9 <;> rfl

theorem ok_bind {α β : Type} (a : α) (f : α → Except PVError β) :
    (Except.ok a >>= f : Except PVError β) = f a := rfl

theorem error_bind {α β : Type} (e : PVError) (f : α → Except PVError β) :
    (Except.error e >>= f : Except PVError β) = Except.error e := rfl

theorem check_vtk9_eval (g : UGridState) (hv : g.vtk9 = true)
    (hoff : (offsetProp g).length = ugNCells g + 1) :
    check_for_consistency g =
      if ugNCells g = g.celltypes.length then .ok ()
      else .error (.valueError "Number of cell types must match the number of cells") := by
  rw [check_for_consistency, hv]
  by_cases h : ugNCells g = g.celltypes.length
  · rw [if_neg (by omega), if_pos rfl, if_neg (by omega), if_pos h]
  · rw [if_pos (by omega), if_neg h]

theorem check_legacy_eval (g : UGridState) (hv : g.vtk9 = false) :
    check_for_consistency g =
      if ugNCells g = g.celltypes.length then
        (if ugNCells g = (offsetProp g).length then .ok ()
         else .error (.valueError "Size of the offset must match the number of cells"))
      else .error (.valueError "Number of cell types must match the number of cells") := by
  rw [check_for_consistency, hv]
  by_cases h : ugNCells g = g.celltypes.length
  · rw [if_neg (by omega), if_neg (by simp), if_pos h]
    by_cases h2 : ugNCells g = (offsetProp g).length
    · rw [if_neg (by omega), if_pos h2]
    · rw [if_pos (by omega), if_neg h2]
  · rw [if_pos (by omega), if_neg h]

theorem ugInit3_eval (cells cts : List Int) (pts : List Point3) (cs : List (List Int))
    (hp : parseCells cells = some cs) :
    ugInit true [.ndIntArr cells, .ndIntArr cts, .ndPtsArr pts] =
      if cts.length = cs.length then
        .ok (ugFromArraysState true none cts pts cs)
      else .error (.valueError "Number of cell types must match the number of cells") := by
  show (ug_from_arrays true none cells cts pts >>= fun g =>
    check_for_consistency g >>= fun _ => Except.ok g) = _
  rw [ug_from_arrays_ok true none cells cts pts cs hp, ok_bind]
  rw [check_vtk9_eval (ugFromArraysState true none cts pts cs) rfl
    (by simp [ugFromArraysState, offsetProp, ugNCells, offsetsOf_length])]
  have hc : (ugFromArraysState true none cts pts cs).celltypes.length = cts.length := by
    simp [ugFromArraysState]
  have hn : ugNCells (ugFromArraysState true none cts pts cs) = cs.length := by
    simp [ugFromArraysState, ugNCells]
  by_cases h : cts.length = cs.length
  · rw [if_pos (by omega), if_pos h, ok_bind]
  · rw [if_neg (by omega), if_neg h, error_bind]

theorem ugInit4_eval (off cells cts : List Int) (pts : List Point3)
    (cs : List (List Int)) (hp : parseCells cells = some cs) :
    ugInit false [.ndIntArr off, .ndIntArr cells, .ndIntArr cts, .ndPtsArr pts] =
      if cts.length = cs.length then
        (if off.length = cs.length then
          .ok (ugFromArraysState false (some off) cts pts cs)
         else .error (.valueError "Size of the offset must match the number of cells"))
      else .error (.valueError "Number of cell types must match the number of cells") := by
  show (ug_from_arrays false (some off) cells cts pts >>= fun g =>
    check_for_consistency g >>= fun _ => Except.ok g) = _
  rw [ug_from_arrays_ok false (some off) cells cts pts cs hp, ok_bind]
  rw [check_legacy_eval (ugFromArraysState false (some off) cts pts cs) rfl]
  have hc : (ugFromArraysState false (some off) cts pts cs).celltypes.length
      = cts.length := by
    simp [ugFromArraysState]
  have hn : ugNCells (ugFromArraysState false (some off) cts pts cs) = cs.length := by
    simp [ugFromArraysState, ugNCells]
  have ho : offsetProp (ugFromArraysState false (some off) cts pts cs) = off := by
    simp [ugFromArraysState, offsetProp]
  by_cases h : cts.length = cs.length
  · rw [if_pos (by omega), if_pos h]
    by_cases h2 : off.length = cs.length
    · rw [if_pos (by rw [hn, ho]; omega), if_pos h2, ok_bind]
    · rw [if_neg (by rw [hn, ho]; omega), if_neg h2, error_bind]
  · rw [if_neg (by omega), if_neg h, error_bind]

theorem ugInitDict_eval (vtk9 : Bool) (d : CellsDict) (pts : List Point3) :
    ugInit vtk9 [.pyDict d, .ndPtsArr pts] =
      .ok (ugFromArraysState vtk9 none
        ((tagList d).map (fun t => Int.ofNat t)) pts (cellsOf d)) := by
  show (ug_from_cells_dict vtk9 d pts >>= fun g =>
    check_for_consistency g >>= fun _ => Except.ok g) = _
  rw [ug_from_cells_dict, create_mixed_cells_fst, create_mixed_cells_snd]
  rw [ug_from_arrays_ok vtk9 none (cellsToFlat (cellsOf d))
    ((tagList d).map (fun t => Int.ofNat t)) pts (cellsOf d)
    (parseCells_cellsToFlat (cellsOf d)), ok_bind]
  have hc : (ugFromArraysState vtk9 none
      ((tagList d).map (fun t => Int.ofNat t)) pts (cellsOf d)).celltypes.length
      = (cellsOf d).length := by
    simp [ugFromArraysState, tagList_length d]
  have hn : ugNCells (ugFromArraysState vtk9 none
      ((tagList d).map (fun t => Int.ofNat t)) pts (cellsOf d)) = (cellsOf d).length := by
    simp [ugFromArraysState, ugNCells]
  cases vtk9 with
  | true =>
    rw [check_vtk9_eval _ rfl
      (by simp [ugFromArraysState, offsetProp, ugNCells, offsetsOf_length])]
    rw [if_pos (by omega), ok_bind]
  | false =>
    rw [check_legacy_eval _ rfl]
    have ho : offsetProp (ugFromArraysState false none
        ((tagList d).map (fun t => Int.ofNat t)) pts (cellsOf d))
        = cellLocations (cellsOf d) := by
      simp [ugFromArraysState, offsetProp]
    rw [if_pos (by omega), if_pos (by rw [hn, ho, cellLocations_length]), ok_bind]

/-- C1: building an `UnstructuredGrid` from arrays succeeds exactly when
the cell-type array length equals the parsed cell count and (for the
legacy encoding, where the offset array is caller-supplied) the offset
array length equals the cell count; any mismatch raises a ValueError.
Under the VTK 9 encoding the offsets array is derived from the cells and
always has one entry more than the number of cells, so every successful
construction, the cells-dictionary path included, satisfies both size
invariants. -/
theorem ugrid_consistency_validation (vtk9 : Bool) (off cells cts : List Int)
    (pts : List Point3) (cs : List (List Int)) (d : CellsDict)
    (hp : parseCells cells = some cs) :
    ((∃ g, ugInit true [.ndIntArr cells, .ndIntArr cts, .ndPtsArr pts] = .ok g) ↔
      cts.length = cs.length) ∧
    (cts.length ≠ cs.length →
      ugInit true [.ndIntArr cells, .ndIntArr cts, .ndPtsArr pts] =
        .error (.valueError "Number of cell types must match the number of cells")) ∧
    ((∃ g, ugInit false [.ndIntArr off, .ndIntArr cells, .ndIntArr cts, .ndPtsArr pts]
        = .ok g) ↔
      (cts.length = cs.length ∧ off.length = cs.length)) ∧
    (cts.length ≠ cs.length →
      ugInit false [.ndIntArr off, .ndIntArr cells, .ndIntArr cts, .ndPtsArr pts] =
        .error (.valueError "Number of cell types must match the number of cells")) ∧
    (cts.length = cs.length → off.length ≠ cs.length →
      ugInit false [.ndIntArr off, .ndIntArr cells, .ndIntArr cts, .ndPtsArr pts] =
        .error (.valueError "Size of the offset must match the number of cells")) ∧
    (∀ g, ugInit true [.ndIntArr cells, .ndIntArr cts, .ndPtsArr pts] = .ok g →
      g.celltypes.length = ugNCells g ∧ (offsetProp g).length = ugNCells g + 1) ∧
    (∀ g, ugInit false [.ndIntArr off, .ndIntArr cells, .ndIntArr cts, .ndPtsArr pts]
        = .ok g →
      g.celltypes.length = ugNCells g ∧ (offsetProp g).length = ugNCells g) ∧
    (∀ g, ugInit vtk9 [.pyDict d, .ndPtsArr pts] = .ok g →
      g.celltypes.length = ugNCells g ∧
      (offsetProp g).length = (if g.vtk9 then ugNCells g + 1 else ugNCells g)) := by
  have e3 := ugInit3_eval cells cts pts cs hp
  have e4 := ugInit4_eval off cells cts pts cs hp
  have ed := ugInitDict_eval vtk9 d pts
  refine ⟨?_, ?_, ?_, ?_, ?_, ?_, ?_, ?_⟩
  · rw [e3]
    constructor
    · rintro ⟨g, hg⟩
      by_cases h : cts.length = cs.length
      · exact h
      · rw [if_neg h] at hg; cases hg
    · intro h
      rw [if_pos h]
      exact ⟨_, rfl⟩
  · intro h
    rw [e3, if_neg h]
  · rw [e4]
    constructor
    · rintro ⟨g, hg⟩
      by_cases h : cts.length = cs.length
      · by_cases h2 : off.length = cs.length
        · exact ⟨h, h2⟩
        · rw [if_pos h, if_neg h2] at hg; cases hg
      · rw [if_neg h] at hg; cases hg
    · rintro ⟨h, h2⟩
      rw [if_pos h, if_pos h2]
      exact ⟨_, rfl⟩
  · intro h
    rw [e4, if_neg h]
  · intro h h2
    rw [e4, if_pos h, if_neg h2]
  · intro g hg
    rw [e3] at hg
    by_cases h : cts.length = cs.length
    · rw [if_pos h] at hg
      cases hg
      constructor
      · simp [ugFromArraysState, ugNCells, h]
      · simp [ugFromArraysState, ugNCells, offsetProp, offsetsOf_length]
    · rw [if_neg h] at hg; cases hg
  · intro g hg
    rw [e4] at hg
    by_cases h : cts.length = cs.length
    · by_cases h2 : off.length = cs.length
      · rw [if_pos h, if_pos h2] at hg
        cases hg
        constructor
        · simp [ugFromArraysState, ugNCells, h]
        · simp only [ugFromArraysState, ugNCells, offsetProp]
          simp [h2]
      · rw [if_pos h, if_neg h2] at hg; cases hg
    · rw [if_neg h] at hg; cases hg
  · intro g hg
    rw [ed] at hg
    cases hg
    constructor
    · simp [ugFromArraysState, ugNCells, tagList_length d]
    · cases vtk9 with
      | true =>
        simp [ugFromArraysState, ugNCells, offsetProp, offsetsOf_length]
      | false =>
        simp [ugFromArraysState, ugNCells, offsetProp, cellLocations_length]

/-! ## Cells-dictionary round trip -/

/-- The cells of a dictionary tagged with their types, in dictionary
order: the zip of the type-tag array with the decoded cell list. -/
def pairsOf (d : CellsDict) : List (Nat × List Int) :=
  d.flatMap (fun p => p.2.map (fun c => (p.1, c)))

/-- Select the cells carrying one type tag. -/
def sel (t : Nat) (P : List (Nat × List Int)) : List (List Int) :=
  P.filterMap (fun q => if q.1 = t then some q.2 else none)

theorem const_zip (t : Nat) (cl : List (List Int)) :
    (cl.map (fun _ => t)).zip cl = cl.map (fun c => (t, c)) := by
  induction cl with
  | nil => rfl
  | cons c cl ih => simp only [List.map_cons, List.zip_cons_cons, ih]

theorem zip_tagList_cellsOf (d : CellsDict) :
    (tagList d).zip (cellsOf d) = pairsOf d := by
  induction d with
  | nil => rfl
  | cons p d ih =>
    rw [tagList, cellsOf, pairsOf, List.flatMap_cons, List.flatMap_cons, List.flatMap_cons]
    rw [List.zip_append (by rw [List.length_map])]
    rw [const_zip]
    rw [tagList, cellsOf, pairsOf] at ih
    rw [ih]

theorem sel_append (t : Nat) (P Q : List (Nat × List Int)) :
    sel t (P ++ Q) = sel t P ++ sel t Q := by
  simp [sel]

theorem sel_block (t u : Nat) (cl : List (List Int)) :
    sel u (cl.map (fun c => (t, c))) = if t = u then cl else [] := by
  induction cl with
  | nil => simp [sel]
  | cons c cl ih =>
    by_cases h : t = u
    · simp only [List.map_cons, sel, List.filterMap_cons] at *
      rw [if_pos h] at *
      simp only [if_pos h, ih]
    · simp only [List.map_cons, sel, List.filterMap_cons] at *
      rw [if_neg h] at *
      simp only [if_neg h, ih]

theorem sel_notmem (u : Nat) (P : List (Nat × List Int))
    (h : ∀ q ∈ P, q.1 ≠ u) : sel u P = [] := by
  induction P with
  | nil => rfl
  | cons q P ih =>
    rw [sel, List.filterMap_cons, if_neg (h q (by simp))]
    exact ih (fun r hr => h r (by simp [hr]))

theorem mem_tagList (u : Nat) (d : CellsDict) (h : u ∈ tagList d) :
    u ∈ d.map Prod.fst := by
  rw [tagList, List.mem_flatMap] at h
  obtain ⟨p, hp, hu⟩ := h
  rw [List.mem_map] at hu
  obtain ⟨c, hc, rfl⟩ := hu
  exact List.mem_map.mpr ⟨p, hp, rfl⟩

theorem mem_pairsOf (q : Nat × List Int) (d : CellsDict) (h : q ∈ pairsOf d) :
    q.1 ∈ d.map Prod.fst := by
  rw [pairsOf, List.mem_flatMap] at h
  obtain ⟨p, hp, hq⟩ := h
  rw [List.mem_map] at hq
  obtain ⟨c, hc, rfl⟩ := hq
  exact List.mem_map.mpr ⟨p, hp, rfl⟩

theorem typesInOrderAux_eq_len (f : Nat) :
    ∀ l : List Nat, l.length ≤ f → typesInOrderAux f l = typesInOrderAux l.length l := by
  induction f using Nat.strong_induction_on with
  | _ f ih =>
    intro l hf
    match l with
    | [] => cases f <;> rfl
    | t :: ts =>
      match f, hf with
      | f + 1, hf =>
        have hr : ts.length ≤ f := by simp at hf; omega
        have hfil : (ts.filter (fun u => u ≠ t)).length ≤ ts.length :=
          List.length_filter_le _ ts
        simp only [List.length_cons, typesInOrderAux]
        rw [ih f (by omega) _ (by omega), ih ts.length (by omega) _ (by omega)]

theorem tio_cons (t : Nat) (ts : List Nat) :
    typesInOrder (t :: ts) = t :: typesInOrder (ts.filter (fun u => u ≠ t)) := by
  show typesInOrderAux (t :: ts).length (t :: ts) = _
  simp only [List.length_cons, typesInOrderAux]
  rw [typesInOrderAux_eq_len ts.length (ts.filter (fun u => u ≠ t))
    (List.length_filter_le _ ts)]
  rfl

theorem mem_tio (u : Nat) :
    ∀ (f : Nat) (l : List Nat), l.length ≤ f → u ∈ typesInOrderAux f l → u ∈ l := by
  intro f
  induction f using Nat.strong_induction_on with
  | _ f ih =>
    intro l hf hm
    match l with
    | [] => cases f <;> cases hm
    | t :: ts =>
      match f, hf with
      | f + 1, hf =>
        simp only [typesInOrderAux, List.mem_cons] at hm
        rcases hm with rfl | hm
        · simp
        · have hr : ts.length ≤ f := by simp at hf; omega
          have := ih f (by omega) (ts.filter (fun u => u ≠ t))
            (le_trans (List.length_filter_le _ ts) hr) hm
          have := List.mem_of_mem_filter this
          simp [this]

theorem mem_typesInOrder (u : Nat) (l : List Nat) (h : u ∈ typesInOrder l) : u ∈ l :=
  mem_tio u l.length l (le_refl _) h

theorem get_mixed_roundtrip (d : CellsDict) (hnd : (d.map Prod.fst).Nodup)
    (hne : ∀ p ∈ d, p.2 ≠ []) :
    (typesInOrder (tagList d)).map (fun t => (t, sel t (pairsOf d))) = d := by
  induction d with
  | nil => rfl
  | cons p d ih =>
    obtain ⟨t, cl⟩ := p
    rw [List.map_cons, List.nodup_cons] at hnd
    have hnotin : t ∉ d.map Prod.fst := hnd.1
    have hcl : cl ≠ [] := hne (t, cl) (by simp)
    have htl : tagList ((t, cl) :: d) = cl.map (fun _ => t) ++ tagList d := by
      rw [tagList, List.flatMap_cons]
      rfl
    have hpair : pairsOf ((t, cl) :: d) = cl.map (fun c => (t, c)) ++ pairsOf d := by
      rw [pairsOf, List.flatMap_cons]
      rfl
    obtain ⟨c0, cl', rfl⟩ : ∃ c0 cl', cl = c0 :: cl' := by
      cases cl with
      | nil => exact absurd rfl hcl
      | cons c0 cl' => exact ⟨c0, cl', rfl⟩
    have hfilter_tags : (tagList d).filter (fun u => u ≠ t) = tagList d := by
      apply List.filter_eq_self.mpr
      intro u hu
      simp only [decide_eq_true_eq]
      intro he
      exact hnotin (he ▸ mem_tagList u d hu)
    have hblockfilter : (cl'.map (fun _ => t)).filter (fun u => u ≠ t) = [] := by
      apply List.filter_eq_nil_iff.mpr
      intro u hu
      rw [List.mem_map] at hu
      obtain ⟨c, hc, rfl⟩ := hu
      simp
    have htio : typesInOrder (tagList ((t, c0 :: cl') :: d))
        = t :: typesInOrder (tagList d) := by
      rw [htl, List.map_cons, List.cons_append, tio_cons,
        List.filter_append, hblockfilter, hfilter_tags, List.nil_append]
    rw [htio, List.map_cons]
    have hhead : sel t (pairsOf ((t, c0 :: cl') :: d)) = c0 :: cl' := by
      rw [hpair, sel_append, sel_block, if_pos rfl,
        sel_notmem t (pairsOf d) (fun q hq he => hnotin (he ▸ mem_pairsOf q d hq)),
        List.append_nil]
    rw [hhead]
    have htail : (typesInOrder (tagList d)).map
          (fun u => (u, sel u (pairsOf ((t, c0 :: cl') :: d))))
        = (typesInOrder (tagList d)).map (fun u => (u, sel u (pairsOf d))) := by
      apply List.map_congr_left
      intro u hu
      have hut : t ≠ u := by
        intro he
        exact hnotin (he ▸ mem_tagList u d (mem_typesInOrder u (tagList d) hu))
      rw [hpair, sel_append, sel_block, if_neg hut, List.nil_append]
    rw [htail, ih hnd.2 (fun q hq => hne q (by simp [hq]))]

/-- C2: building an `UnstructuredGrid` from a cells dictionary (distinct
valid fixed-size cell types, each with at least one cell, over a valid
points array) and reading back `cells_dict` returns the input dictionary:
the type tags and cell arrays round-trip through the padded flat
encoding. -/
theorem cells_dict_roundtrip (vtk9 : Bool) (d : CellsDict) (pts : List Point3)
    (hnd : (d.map Prod.fst).Nodup)
    (hne : ∀ p ∈ d, p.2 ≠ [])
    (hkey : ∀ p ∈ d, p.1 < 256)
    (hfix : ∀ p ∈ d, ∀ c1 ∈ p.2, ∀ c2 ∈ p.2, c1.length = c2.length)
    (hidx : ∀ p ∈ d, ∀ c ∈ p.2, ∀ i ∈ c, 0 ≤ i ∧ i < (pts.length : Int)) :
    ∃ g, ugInit vtk9 [.pyDict d, .ndPtsArr pts] = .ok g ∧ cellsDictProp g = d := by
  refine ⟨_, ugInitDict_eval vtk9 d pts, ?_⟩
  have hct : ((tagList d).map (fun t => Int.ofNat t)).map toUInt8 = tagList d := by
    rw [List.map_map]
    have hmem : ∀ u ∈ tagList d, (toUInt8 ∘ fun t => Int.ofNat t) u = u := by
      intro u hu
      obtain ⟨p, hp, rfl⟩ := List.mem_map.mp (mem_tagList u d hu)
      have hlt : p.1 < 256 := hkey p hp
      show (((p.1 : Nat) : Int) % 256).toNat = p.1
      omega
    calc (tagList d).map (toUInt8 ∘ fun t => Int.ofNat t)
        = (tagList d).map id := List.map_congr_left hmem
      _ = tagList d := List.map_id _
  show get_mixed_cells _ = d
  rw [get_mixed_cells]
  have hctproj : (ugFromArraysState vtk9 none ((tagList d).map (fun t => Int.ofNat t))
      pts (cellsOf d)).celltypes = tagList d := by
    rw [ugFromArraysState]
    exact hct
  have hclproj : (ugFromArraysState vtk9 none ((tagList d).map (fun t => Int.ofNat t))
      pts (cellsOf d)).cellList = cellsOf d := rfl
  rw [hctproj, hclproj, zip_tagList_cellsOf]
  exact get_mixed_roundtrip d hnd hne

/-! ## Column-major index arithmetic -/

theorem validIdx_length (s is : List Nat) (h : validIdx s is = true) :
    is.length = s.length := by
  induction s generalizing is with
  | nil => cases is with
    | nil => rfl
    | cons i is => cases h
  | cons n s ih =>
    cases is with
    | nil => cases h
    | cons i is =>
      rw [validIdx, Bool.and_eq_true] at h
      simp only [List.length_cons, ih is h.2]

theorem fidx_lt (s is : List Nat) (h : validIdx s is = true) :
    fidx s is < s.prod := by
  induction s generalizing is with
  | nil => cases is with
    | nil => simp [fidx]
    | cons i is => cases h
  | cons n s ih =>
    cases is with
    | nil => cases h
    | cons i is =>
      rw [validIdx, Bool.and_eq_true, decide_eq_true_eq] at h
      have h1 : i < n := h.1
      have h2 : fidx s is < s.prod := ih is h.2
      rw [fidx, List.prod_cons]
      calc i + n * fidx s is < n + n * fidx s is := by omega
        _ = n * (fidx s is + 1) := by ring
        _ ≤ n * s.prod := Nat.mul_le_mul_left n (by omega)

theorem funravel_fidx (s is : List Nat) (h : validIdx s is = true) :
    funravel s (fidx s is) = is := by
  induction s generalizing is with
  | nil => cases is with
    | nil => rfl
    | cons i is => cases h
  | cons n s ih =>
    cases is with
    | nil => cases h
    | cons i is =>
      rw [validIdx, Bool.and_eq_true, decide_eq_true_eq] at h
      have h1 : i < n := h.1
      rw [fidx, funravel]
      have hmod : (i + n * fidx s is) % n = i := by
        rw [Nat.add_mul_mod_self_left, Nat.mod_eq_of_lt h1]
      have hdiv : (i + n * fidx s is) / n = fidx s is := by
        rw [Nat.add_mul_div_left _ _ (by omega), Nat.div_eq_of_lt h1, Nat.zero_add]
      rw [hmod, hdiv, ih is h.2]

theorem fidx_append (s t is js : List Nat) (h : is.length = s.length) :
    fidx (s ++ t) (is ++ js) = fidx s is + s.prod * fidx t js := by
  induction s generalizing is with
  | nil =>
    cases is with
    | nil => simp [fidx]
    | cons i is => cases h
  | cons n s ih =>
    cases is with
    | nil => cases h
    | cons i is =>
      rw [List.cons_append, List.cons_append, fidx, fidx,
        ih is (by simpa using h), List.prod_cons]
      ring

theorem validIdx_ones (m : Nat) (js : List Nat)
    (h : validIdx (List.replicate m 1) js = true) : js = List.replicate m 0 := by
  induction m generalizing js with
  | zero =>
    cases js with
    | nil => rfl
    | cons j js => cases h
  | succ m ih =>
    cases js with
    | nil => cases h
    | cons j js =>
      rw [List.replicate_succ, validIdx, Bool.and_eq_true, decide_eq_true_eq] at h
      have : j = 0 := by omega
      rw [List.replicate_succ, this, ih js h.2]

theorem fidx_ones_zeros (m : Nat) :
    fidx (List.replicate m 1) (List.replicate m 0) = 0 := by
  induction m with
  | zero => rfl
  | succ m ih =>
    rw [List.replicate_succ, List.replicate_succ, fidx, ih]

theorem getD_range_map (n k : Nat) (f : Nat → Int) (d : Int) (h : k < n) :
    ((List.range n).map f).getD k d = f k := by
  rw [List.getD_eq_getElem?_getD, List.getElem?_map, List.getElem?_range h]
  rfl

/-- C5: a `StructuredGrid` built from three same-shaped arrays stores the
points in column-major order of the dimension tuple (each coordinate
column is the Fortran-order flattening of the corresponding input), its
dimensions are the input shape padded with trailing ones to length three,
and the `x`, `y`, `z` properties return the inputs reshaped to those
dimensions (in particular they agree with the inputs on every valid
multi-index, the trailing padded axes carrying index zero). -/
theorem sg_from_arrays_column_major (x y z : NDArray)
    (hxy : x.shape = y.shape) (hyz : y.shape = z.shape)
    (hlen : x.shape.length ≤ 3) :
    ∃ g, sgFromArrays x y z = .ok g ∧
      g.dims = padTo3 x.shape ∧
      g.points.map (fun p => p.1) = ravelF x ∧
      g.points.map (fun p => p.2.1) = ravelF y ∧
      g.points.map (fun p => p.2.2) = ravelF z ∧
      xProp g = reshapeF (padTo3 x.shape) (ravelF x) ∧
      yProp g = reshapeF (padTo3 x.shape) (ravelF y) ∧
      zProp g = reshapeF (padTo3 x.shape) (ravelF z) ∧
      (∀ is js, validIdx x.shape is = true →
        validIdx (List.replicate (3 - x.shape.length) 1) js = true →
        (xProp g).elem (is ++ js) = x.elem is ∧
        (yProp g).elem (is ++ js) = y.elem is ∧
        (zProp g).elem (is ++ js) = z.elem is) := by
  have hcond : x.shape = y.shape ∧ y.shape = z.shape := ⟨hxy, hyz⟩
  have hdim : (padTo3 x.shape).length = 3 := by
    rw [padTo3, List.length_append, List.length_replicate]
    omega
  have hcx : ((List.range x.shape.prod).map
      (fun k => (x.elem (funravel x.shape k), y.elem (funravel y.shape k),
                 z.elem (funravel z.shape k)))).map (fun p => p.1) = ravelF x := by
    rw [List.map_map]
    rfl
  have hcy : ((List.range x.shape.prod).map
      (fun k => (x.elem (funravel x.shape k), y.elem (funravel y.shape k),
                 z.elem (funravel z.shape k)))).map (fun p => p.2.1) = ravelF y := by
    rw [List.map_map, ravelF, ← hxy]
    rfl
  have hcz : ((List.range x.shape.prod).map
      (fun k => (x.elem (funravel x.shape k), y.elem (funravel y.shape k),
                 z.elem (funravel z.shape k)))).map (fun p => p.2.2) = ravelF z := by
    rw [List.map_map, ravelF, ← hyz, ← hxy]
    rfl
  have hinit : sgFromArrays x y z = .ok
      { dims := padTo3 x.shape,
        points := (List.range x.shape.prod).map
          (fun k => (x.elem (funravel x.shape k), y.elem (funravel y.shape k),
                     z.elem (funravel z.shape k))),
        cellArrays := [] } := by
    rw [sgFromArrays, if_pos hcond]
    show (if (padTo3 x.shape).length = 3 then _ else _) = _
    rw [if_pos hdim]
  refine ⟨_, hinit, rfl, hcx, hcy, hcz, ?_, ?_, ?_, ?_⟩
  · show reshapeF (padTo3 x.shape) _ = _
    rw [hcx]
  · show reshapeF (padTo3 x.shape) _ = _
    rw [hcy]
  · show reshapeF (padTo3 x.shape) _ = _
    rw [hcz]
  · intro is js hvis hvjs
    have hjs : js = List.replicate (3 - x.shape.length) 0 := validIdx_ones _ js hvjs
    have hfi : fidx (padTo3 x.shape) (is ++ js) = fidx x.shape is := by
      rw [padTo3, hjs, fidx_append x.shape _ is _ (validIdx_length _ _ hvis),
        fidx_ones_zeros, Nat.mul_zero, Nat.add_zero]
    have hlt : fidx x.shape is < x.shape.prod := fidx_lt x.shape is hvis
    have hun : funravel x.shape (fidx x.shape is) = is := funravel_fidx x.shape is hvis
    refine ⟨?_, ?_, ?_⟩
    · show (reshapeF (padTo3 x.shape) _).elem (is ++ js) = _
      rw [reshapeF]
      show (_ : List Int).getD (fidx (padTo3 x.shape) (is ++ js)) 0 = _
      rw [hcx, hfi, ravelF, getD_range_map _ _ _ _ hlt, hun]
    · show (reshapeF (padTo3 x.shape) _).elem (is ++ js) = _
      rw [reshapeF]
      show (_ : List Int).getD (fidx (padTo3 x.shape) (is ++ js)) 0 = _
      rw [hcy, hfi, ravelF, ← hxy, getD_range_map _ _ _ _ hlt, hun]
    · show (reshapeF (padTo3 x.shape) _).elem (is ++ js) = _
      rw [reshapeF]
      show (_ : List Int).getD (fidx (padTo3 x.shape) (is ++ js)) 0 = _
      rw [hcz, hfi, ravelF, ← hyz, ← hxy, getD_range_map _ _ _ _ hlt, hun]

/-! ## Witnesses: the claim theorems evaluated at concrete inputs -/

/-- Witness for C1 at a one-cell grid. -/
theorem ugrid_consistency_validation_witness :
    parseCells [3, 0, 1, 2] = some [[0, 1, 2]] ∧
    (∃ g, ugInit true [.ndIntArr [3, 0, 1, 2], .ndIntArr [5],
      .ndPtsArr [(0, 0, 0)]] = .ok g) ∧
    ugInit true [.ndIntArr [3, 0, 1, 2], .ndIntArr [5, 6], .ndPtsArr [(0, 0, 0)]] =
      .error (.valueError "Number of cell types must match the number of cells") ∧
    ugInit false [.ndIntArr [0, 4], .ndIntArr [3, 0, 1, 2], .ndIntArr [5],
      .ndPtsArr [(0, 0, 0)]] =
      .error (.valueError "Size of the offset must match the number of cells") := by
  have hp : parseCells [3, 0, 1, 2] = some [[0, 1, 2]] := by decide
  have h1 := ugrid_consistency_validation true [0, 4] [3, 0, 1, 2] [5]
    [(0, 0, 0)] [[0, 1, 2]] [(5, [[0, 1, 2]])] hp
  have h2 := ugrid_consistency_validation true [0, 4] [3, 0, 1, 2] [5, 6]
    [(0, 0, 0)] [[0, 1, 2]] [(5, [[0, 1, 2]])] hp
  exact ⟨hp, h1.1.mpr (by decide), h2.2.1 (by decide),
    h1.2.2.2.2.1 (by decide) (by decide)⟩

/-- Witness for C2 at a two-type dictionary. -/
theorem cells_dict_roundtrip_witness :
    (([(5, [[0, 1, 2]]), (10, [[0, 1]])] : CellsDict).map Prod.fst).Nodup ∧
    (∃ g, ugInit true [.pyDict [(5, [[0, 1, 2]]), (10, [[0, 1]])],
        .ndPtsArr [(0, 0, 0), (1, 0, 0), (0, 1, 0)]] = .ok g ∧
      cellsDictProp g = [(5, [[0, 1, 2]]), (10, [[0, 1]])]) := by
  refine ⟨by decide, ?_⟩
  exact cells_dict_roundtrip true [(5, [[0, 1, 2]]), (10, [[0, 1]])]
    [(0, 0, 0), (1, 0, 0), (0, 1, 0)]
    (by decide) (by decide) (by decide) (by decide) (by decide)

/-- A small structured grid (one cell) used by the C4 witness. -/
def wSGrid : SGridState :=
  { dims := [2, 1, 1], points := [(0, 0, 0), (1, 0, 0)], cellArrays := [] }

/-- Witness for C4: wrong-size masks are rejected, right-size masks and
index iterables pass the size check, on both mesh kinds. -/
theorem mask_size_validation_witness :
    remove_cells (emptyUG true) (.boolMask [true]) true =
      .error (.valueError "Boolean array size must match the number of cells") ∧
    (∃ r, remove_cells (emptyUG true) (.boolMask []) false = .ok r) ∧
    PVError.indexError = PVError.indexError ∧
    hide_cells wSGrid (.boolMask [true, true]) =
      .error (.valueError "Boolean array size must match the number of cells") ∧
    (∃ r, hide_cells wSGrid (.boolMask [true]) = .ok r) ∧
    PVError.indexError = PVError.indexError := by
  refine ⟨?_, ?_, ?_, ?_, ?_, ?_⟩
  · exact mask_size_validation.1 (emptyUG true) [true] true (by decide)
  · exact mask_size_validation.2.1 (emptyUG true) [] false (by decide)
  · exact mask_size_validation.2.2.1 (emptyUG true) [0] true PVError.indexError (by rfl)
  · exact mask_size_validation.2.2.2.1 wSGrid [true, true] (by decide)
  · exact mask_size_validation.2.2.2.2.1 wSGrid [true] (by decide)
  · exact mask_size_validation.2.2.2.2.2 wSGrid [5] PVError.indexError (by rfl)

/-- Concrete two-by-two arrays for the C5 witness. -/
def wArrX : NDArray :=
  { shape := [2, 2], elem := fun is => Int.ofNat (10 * is.getD 0 0 + is.getD 1 0) }

/-- Second concrete array for the C5 witness. -/
def wArrY : NDArray :=
  { shape := [2, 2], elem := fun is => Int.ofNat (100 + is.getD 0 0) }

/-- Third concrete array for the C5 witness. -/
def wArrZ : NDArray := { shape := [2, 2], elem := fun _ => 7 }

/-- Witness for C5 at two-by-two arrays. -/
theorem sg_from_arrays_column_major_witness :
    wArrX.shape = wArrY.shape ∧ wArrY.shape = wArrZ.shape ∧ wArrX.shape.length ≤ 3 ∧
    (∃ g, sgFromArrays wArrX wArrY wArrZ = .ok g ∧
      g.dims = padTo3 wArrX.shape ∧
      g.points.map (fun p => p.1) = ravelF wArrX ∧
      g.points.map (fun p => p.2.1) = ravelF wArrY ∧
      g.points.map (fun p => p.2.2) = ravelF wArrZ ∧
      xProp g = reshapeF (padTo3 wArrX.shape) (ravelF wArrX)) := by
  obtain ⟨g, h1, h2, h3, h4, h5, h6, _⟩ :=
    sg_from_arrays_column_major wArrX wArrY wArrZ rfl rfl (by decide)
  exact ⟨rfl, rfl, by decide, g, h1, h2, h3, h4, h5, h6⟩

/-- Witness for C6 at a one-triangle, one-segment mesh. -/
theorem polydata_connectivity_roundtrip_witness :
    parseCells [3, 0, 1, 2] = some [[0, 1, 2]] ∧
    parseCells [2, 0, 1] = some [[0, 1]] ∧
    (∃ g g2,
      pdInit (.pointsArr [(0, 0, 0), (1, 0, 0), (0, 1, 0)])
        (some [3, 0, 1, 2]) none none none = .ok g ∧
      facesProp g = [3, 0, 1, 2] ∧
      setLinesProp g [2, 0, 1] = .ok g2 ∧
      linesProp g2 = [2, 0, 1] ∧
      facesProp g2 = [3, 0, 1, 2] ∧ g2.points = [(0, 0, 0), (1, 0, 0), (0, 1, 0)]) := by
  exact ⟨by decide, by decide,
    polydata_connectivity_roundtrip [(0, 0, 0), (1, 0, 0), (0, 1, 0)]
      [3, 0, 1, 2] [2, 0, 1] [[0, 1, 2]] [[0, 1]] none none (by decide) (by decide)⟩

/-- Witness for C7 at arrays of shapes [2] and [3]. -/
theorem sg_shape_mismatch_valueerror_witness :
    ¬((NDArray.mk [2] (fun _ => 0)).shape = (NDArray.mk [3] (fun _ => 0)).shape ∧
      (NDArray.mk [3] (fun _ => 0)).shape = (NDArray.mk [3] (fun _ => 0)).shape) ∧
    sgFromArrays (NDArray.mk [2] (fun _ => 0)) (NDArray.mk [3] (fun _ => 0))
      (NDArray.mk [3] (fun _ => 0)) =
      .error (.valueError "Input point array shapes must match exactly") := by
  refine ⟨by decide, ?_⟩
  exact sg_shape_mismatch_valueerror _ _ _ (by decide)

/-- A three-cell grid used by the C10 witness. -/
def wUGrid : UGridState :=
  { vtk9 := true, points := [(0, 0, 0), (1, 0, 0), (0, 1, 0)],
    cellList := [[0], [1], [2]], celltypes := [1, 1, 1], locations := [],
    cellArrays := [("val", [7, 8, 9])] }

/-- Witness for C10: removing the middle cell of a three-cell grid. -/
theorem remove_cells_inplace_frame_witness :
    (∀ i ∈ [1], i < ugNCells wUGrid) ∧
    (∃ g2, remove_cells wUGrid (.indices [1]) false = .ok (wUGrid, some g2) ∧
      g2.cellList = keepNotIndexed wUGrid.cellList [1] 0 ∧
      g2.celltypes = keepNotIndexed wUGrid.celltypes [1] 0) ∧
    (∃ g2, remove_cells wUGrid (.indices [1]) true = .ok (g2, none) ∧
      g2.cellList = keepNotIndexed wUGrid.cellList [1] 0 ∧
      g2.celltypes = keepNotIndexed wUGrid.celltypes [1] 0) := by
  obtain ⟨h1, h2⟩ := remove_cells_inplace_frame wUGrid [1] (by decide) (by decide)
  exact ⟨by decide, h1, h2⟩
